import Mathlib

/-!
Shallow embedding of the MacCleaner main-process logic (src/main.js).

External command invocations (vm_stat, pagesize, memory_pressure, sudo,
osascript, ps, kill, rm) are modelled as oracle inputs: each embedded
function takes the parsed results the JavaScript code would extract from
the command output, and returns the value the code would compute together
with a trace of the external actions it would perform.  Machine numbers
are modelled as Nat/Int (JavaScript numbers on these code paths are
integers well below 2^53, where double arithmetic is exact; the one
rounded division, usedPct, is modelled as exact rational rounding and
immediately clamped to [0,100], so the clamp bounds do not depend on
float rounding).
-/

namespace MacCleaner

/-- JavaScript `a || b` on a nullable string: a `null` or empty string
falls through to the default. -/
def jsOr (a : Option String) (b : String) : String :=
  match a with
  | some s => if s = "" then b else s
  | none => b

/-- JavaScript `Math.round (num / den)` for integer `num` and positive
integer `den`: round half toward positive infinity, i.e. ⌊num/den + 1/2⌋,
computed as floor division of `2*num + den` by `2*den`. -/
def jsRound (num : Int) (den : Int) : Int :=
  Int.fdiv (2 * num + den) (2 * den)

/-- JavaScript `String.prototype.includes`: `strContains s sub` is true
iff `sub` occurs contiguously in `s`. -/
def strContains (s sub : String) : Bool :=
  (List.range (s.data.length + 1)).any fun i =>
    ((s.data.drop i).take sub.data.length) == sub.data

/-- Character-level upper-casing (JavaScript `toUpperCase` on the ASCII
command output handled here). -/
def jsToUpper (s : String) : String :=
  ⟨s.data.map Char.toUpper⟩

/-- Character-level lower-casing (JavaScript `toLowerCase` on the ASCII
process names handled here). -/
def jsToLower (s : String) : String :=
  ⟨s.data.map Char.toLower⟩

/-- Split a character list on a separator character, JavaScript
`split(sep)` style: always at least one (possibly empty) component. -/
def splitOnChar (sep : Char) (l : List Char) : List (List Char) :=
  l.foldr
    (fun ch acc =>
      if ch = sep then [] :: acc
      else
        match acc with
        | [] => [[ch]]
        | a :: as => (ch :: a) :: as)
    [[]]

/-- JavaScript `str.split('/').pop()`: the last slash-separated component
of a command path (used to turn a `comm` value into a process name). -/
def jsBaseName (s : String) : String :=
  ⟨(splitOnChar '/' s.data).getLastD s.data⟩

-- ─── getRamSnapshot (src/main.js lines 154-174) ───────────────────────────

/-- Parse results extracted from `vm_stat` output: the page counts for the
five keys the code matches with `key:\s+(\d+)`; a key that does not match
contributes 0 (the code returns 0 for a failed match). -/
structure VmStatParse where
  wiredPages : Nat
  activePages : Nat
  inactivePages : Nat
  compressedPages : Nat
  freePages : Nat
deriving Repr, DecidableEq

/-- ResourceSnapshot as built by `getRamSnapshot`.  Byte figures are
integers; `used` is a signed difference in the code (`total - (free +
inactive)`), so all fields are `Int`.  `usedPct` is `none` exactly in the
corner where the JavaScript expression `(used / total) * 100` is `0/0 =
NaN` (total = 0 and used = 0); in every other case it is the clamped
rounded percentage. -/
structure RamSnapshot where
  total : Int
  used : Int
  free : Int
  wired : Int
  active : Int
  inactive : Int
  compressed : Int
  usedPct : Option Int
deriving Repr, DecidableEq

/-- Embedding of `getRamSnapshot`: `pageSizeOut` is the parse of the
`pagesize` command output (`none` when it fails to parse; the code's
`|| 16384` also replaces a parsed 0), `totalmem` is `os.totalmem()`.
The snapshot's `free` field is `free + inactive` bytes as in the source,
`used = total - (free + inactive)`, and `usedPct = max(0, min(100,
round(used/total*100)))`. -/
def getRamSnapshot (p : VmStatParse) (pageSizeOut : Option Nat) (totalmem : Nat) :
    RamSnapshot :=
  let pageSize : Nat :=
    match pageSizeOut with
    | some n => if n = 0 then 16384 else n
    | none => 16384
  let wired := p.wiredPages * pageSize
  let active := p.activePages * pageSize
  let inactive := p.inactivePages * pageSize
  let compressed := p.compressedPages * pageSize
  let free := p.freePages * pageSize
  let used : Int := (totalmem : Int) - ((free : Int) + (inactive : Int))
  let usedPct : Option Int :=
    if totalmem = 0 then
      if used = 0 then none else some 0
    else
      some (max 0 (min 100 (jsRound (used * 100) (totalmem : Int))))
  { total := (totalmem : Int)
    used := used
    free := ((free : Int) + (inactive : Int))
    wired := (wired : Int)
    active := (active : Int)
    inactive := (inactive : Int)
    compressed := (compressed : Int)
    usedPct := usedPct }

-- ─── getMemoryPressure (src/main.js lines 176-198) ────────────────────────

/-- PressureReading as built by `getMemoryPressure`. -/
structure Pressure where
  level : String
  status : String
  freePct : Option Nat
deriving Repr, DecidableEq

/-- Embedding of `getMemoryPressure`.  The two regex extractions over the
`memory_pressure` output are modelled as inputs: `statusWord` is the
capture of `System-wide memory status:\s*([A-Z]+)` (case-insensitive, so
it may be mixed case; the code upper-cases it), `freePct` is the capture
of `System-wide memory free percentage:\s*(\d+)%`. -/
def getMemoryPressureFrom (statusWord : Option String) (freePct : Option Nat) :
    Pressure :=
  let rawStatus : Option String := statusWord.map jsToUpper
  let level : Option String :=
    match rawStatus with
    | some "CRITICAL" => some "critical"
    | some "WARNING" => some "warning"
    | some "OK" => some "normal"
    | _ => none
  let inferred : String :=
    match freePct with
    | none => "unknown"
    | some v => if v < 5 then "critical" else if v < 12 then "warning" else "normal"
  { level := jsOr level inferred
    status := jsOr rawStatus
      (if inferred = "normal" then "OK"
       else if inferred = "warning" then "WARNING"
       else if inferred = "critical" then "CRITICAL"
       else "UNKNOWN")
    freePct := freePct }

-- ─── isProtectedProcessName (src/main.js lines 200-209) ───────────────────

/-- The fixed deny-list of critical system/UI process names. -/
def protectedNames : List String :=
  ["kernel_task", "launchd", "windowserver", "loginwindow", "syslogd",
   "distnoted", "cfprefsd", "notifyd", "coreservicesd", "opendirectoryd",
   "hidd", "airportd", "bluetoothd", "finder", "dock", "controlcenter",
   "systemsettings", "activity monitor", "maccleaner", "electron"]

/-- Embedding of `isProtectedProcessName`: lower-case the name and test
each deny-list entry with `n === p || n.includes(p)` (the equality is
subsumed by the substring test but kept as in the source). -/
def isProtectedProcessName (name : String) : Bool :=
  let n := jsToLower name
  protectedNames.any fun p => n == p || strContains n p

-- ─── purgeRamSmart (src/main.js lines 222-308) ────────────────────────────

/-- Result of one underlying privileged-command invocation
(`purgeRamWithSudoNoPrompt`, `authorizeSudoSession`,
`purgeRamWithAdminPrompt`): success flag plus the error text the code
would attach on failure (`none` models an absent/undefined field). -/
structure PResult where
  success : Bool
  error : Option String
deriving Repr, DecidableEq

/-- Oracle for one run of `purgeRamSmart`: the result of the cached-sudo
probe (`sudo -n true`), of the at-most-one tier-1 and at-most-one tier-2
invocation of `sudo -n purge`, of the AskPass session authorization
(`sudo -A -v`), and of the native-dialog purge (`osascript ... with
administrator privileges`). -/
structure PurgeEnv where
  sudoCached : Bool
  noPrompt1 : PResult
  auth : PResult
  noPrompt2 : PResult
  fallback : PResult
deriving Repr, DecidableEq

/-- External actions performed during a `purgeRamSmart` run. -/
inductive Event where
  | sudoProbe
  | sudoNoPromptPurge
  | askpassAuth
  | nativeDialogPurge
deriving Repr, DecidableEq, BEq

/-- Result object of `purgeRamSmart`: `method` is present on success,
`error` on failure. -/
structure SmartResult where
  success : Bool
  method : Option String
  error : Option String
deriving Repr, DecidableEq

/-- Embedding of `purgeRamSmart`, returning the result together with the
trace of external actions.  The code strings tag the tier that succeeded:
`"sudo-cached"` is the spec's `cached-credential`, `"sudo-askpass"` the
spec's `prompted-credential`, `"osascript-admin"` the spec's
`native-dialog`.  On total failure the error is
`fallback.error || auth.error || "Unable to authorize RAM cleanup"`. -/
def purgeRamSmartRun (env : PurgeEnv) : SmartResult × List Event :=
  let tier3 : List Event → SmartResult × List Event := fun evs =>
    let evs := evs ++ [Event.nativeDialogPurge]
    if env.fallback.success then
      (⟨true, some "osascript-admin", none⟩, evs)
    else
      (⟨false, none,
        some (jsOr env.fallback.error
          (jsOr env.auth.error "Unable to authorize RAM cleanup"))⟩, evs)
  let tier2 : List Event → SmartResult × List Event := fun evs =>
    let evs := evs ++ [Event.askpassAuth]
    if env.auth.success then
      let evs := evs ++ [Event.sudoNoPromptPurge]
      if env.noPrompt2.success then (⟨true, some "sudo-askpass", none⟩, evs)
      else tier3 evs
    else tier3 evs
  if env.sudoCached then
    let evs := [Event.sudoProbe, Event.sudoNoPromptPurge]
    if env.noPrompt1.success then (⟨true, some "sudo-cached", none⟩, evs)
    else tier2 evs
  else tier2 [Event.sudoProbe]

-- ─── buildRamCleanupMetrics (src/main.js lines 310-333) ───────────────────

/-- CleanupReport deltas as built by `buildRamCleanupMetrics`. -/
structure RamCleanupMetrics where
  immediate : RamSnapshot
  immediatePressure : Pressure
  stabilized : RamSnapshot
  stabilizedPressure : Pressure
  immediateFreeGainBytes : Int
  immediateUsedDropBytes : Int
  stabilizedFreeGainBytes : Int
  stabilizedUsedDropBytes : Int
deriving Repr, DecidableEq

/-- Embedding of `buildRamCleanupMetrics`: the two snapshot/pressure reads
it performs (immediately, and after the 12 s settle sleep) are oracle
inputs; each delta is clamped with `Math.max(0, ...)`. -/
def buildRamCleanupMetrics (before immediate stabilized : RamSnapshot)
    (immediatePressure stabilizedPressure : Pressure) : RamCleanupMetrics :=
  { immediate := immediate
    immediatePressure := immediatePressure
    stabilized := stabilized
    stabilizedPressure := stabilizedPressure
    immediateFreeGainBytes := max 0 (immediate.free - before.free)
    immediateUsedDropBytes := max 0 (before.used - immediate.used)
    stabilizedFreeGainBytes := max 0 (stabilized.free - before.free)
    stabilizedUsedDropBytes := max 0 (before.used - stabilized.used) }

-- ─── free-ram handler (src/main.js lines 572-600) ─────────────────────────

/-- Oracle for one run of the `free-ram` IPC handler: the purge-escalation
oracle plus the three snapshot/pressure reads in program order (`snap1`
before authorization, `snap2` immediately after a successful purge,
`snap3` after the settle delay). -/
structure FreeEnv where
  purge : PurgeEnv
  snap1 : RamSnapshot
  press1 : Pressure
  snap2 : RamSnapshot
  press2 : Pressure
  snap3 : RamSnapshot
  press3 : Pressure

/-- Result shape of the `free-ram` handler: on failure it carries the
error together with the pre-operation snapshot and pressure; on success
the before state plus the cleanup metrics. -/
inductive FreeRamOutcome where
  | failure (error : Option String) (before : RamSnapshot) (beforePressure : Pressure)
  | ok (before : RamSnapshot) (beforePressure : Pressure) (metrics : RamCleanupMetrics)
deriving Repr, DecidableEq

/-- Embedding of the `free-ram` handler: read the before snapshot and
pressure, run `purgeRamSmart`; on failure return the structured failure
with the before state, otherwise build the cleanup metrics.  The function
is total: no run raises. -/
def freeRam (env : FreeEnv) : FreeRamOutcome × List Event :=
  let before := env.snap1
  let beforePressure := env.press1
  let (result, evs) := purgeRamSmartRun env.purge
  if result.success then
    (.ok before beforePressure
      (buildRamCleanupMetrics before env.snap2 env.snap3 env.press2 env.press3),
     evs)
  else
    (.failure result.error before beforePressure, evs)

-- ─── quit-process / deep-clean-ram process guards (src/main.js 515-541, 602-636)

/-- Oracle for the process-termination handlers: `table` models the
`ps -o user=,comm= -p pid` lookup (`none` when ps prints nothing, i.e.
the process does not exist; otherwise the owner and the comm path),
`me` is `os.userInfo().username`, `selfPid` is `process.pid`, `killOk`
tells whether `process.kill(pid, SIGTERM)` returns without throwing
(`killErrMsg` the exception message when it throws), and `aliveAfter`
models the `ps -p pid -o pid=` re-check made 1.2 s after the signal. -/
structure ProcEnv where
  table : Int → Option (String × String)
  me : String
  selfPid : Int
  killOk : Int → Bool
  killErrMsg : Int → String
  aliveAfter : Int → Bool

/-- Result object of the `quit-process` handler. -/
structure QuitResult where
  success : Bool
  error : Option String
deriving Repr, DecidableEq

/-- Embedding of the `quit-process` handler for an already-parsed numeric
pid, returning the result together with the list of pids to which SIGTERM
was actually signalled (empty or the singleton `[pid]`).  After an
admitted signal the handler waits the 1.2 s grace period and re-checks
liveness (`aliveAfter`), failing with `Process did not exit in time` if
the process is still there. -/
def quitProcess (env : ProcEnv) (pid : Int) : QuitResult × List Int :=
  if pid ≤ 1 ∨ pid = env.selfPid then (⟨false, some "Invalid process id"⟩, [])
  else
    match env.table pid with
    | none => (⟨false, some "Process not found"⟩, [])
    | some (owner, comm) =>
      let name := jsBaseName comm
      if owner ≠ env.me then
        (⟨false, some "Refusing to terminate non-user process"⟩, [])
      else if isProtectedProcessName name then
        (⟨false, some "Protected process cannot be terminated"⟩, [])
      else if env.killOk pid then
        if env.aliveAfter pid then
          (⟨false, some "Process did not exit in time"⟩, [pid])
        else (⟨true, none⟩, [pid])
      else (⟨false, some (env.killErrMsg pid)⟩, [pid])

/-- Accumulator of the `deep-clean-ram` candidate loop:
`(stopped, skipped, signalled)` where `stopped` holds `(pid, name)` pairs,
`skipped` holds `(pid, reason)` pairs, and `signalled` the pids to which
SIGTERM was attempted. -/
abbrev DeepCleanAcc := List (Int × String) × List (Int × String) × List Int

/-- One iteration of the `deep-clean-ram` candidate loop: the three
guards (valid pid that is not our own, process exists, owned by the
invoking user and not deny-listed) are applied in order; a candidate
failing a guard is skipped with its reason, an admitted candidate is
signalled (recorded in `stopped` when the kill call does not throw, else
skipped with `termination failed`). -/
def deepCleanStep (env : ProcEnv) (acc : DeepCleanAcc) (pid : Int) : DeepCleanAcc :=
  let (stopped, skipped, signalled) := acc
  if pid ≤ 1 ∨ pid = env.selfPid then
    (stopped, skipped ++ [(pid, "invalid pid")], signalled)
  else
    match env.table pid with
    | none => (stopped, skipped ++ [(pid, "not found")], signalled)
    | some (owner, comm) =>
      let name := jsBaseName comm
      if owner ≠ env.me ∨ isProtectedProcessName name then
        (stopped, skipped ++ [(pid, "not allowed")], signalled)
      else if env.killOk pid then
        (stopped ++ [(pid, name)], skipped, signalled ++ [pid])
      else (stopped, skipped ++ [(pid, "termination failed")], signalled ++ [pid])

/-- Embedding of the candidate-processing phase of the `deep-clean-ram`
handler: the input list is capped at 5 (`pids.slice(0, 5)`) and folded
through the guard loop. -/
def deepCleanPids (env : ProcEnv) (pids : List Int) : DeepCleanAcc :=
  (pids.take 5).foldl (deepCleanStep env) ([], [], [])

-- ─── clean-disk-item handler (src/main.js lines 754-792) ──────────────────

/-- One entry of the `clean-disk-item` target map: a single directory, a
list of directories, or a shell command. -/
inductive CleanTarget where
  | tPath (p : String)
  | tPaths (ps : List String)
  | tCmd (c : String)
deriving Repr, DecidableEq

/-- The fixed `clean-disk-item` target map, keyed by category id (six
keys; `home` is `os.homedir()`). -/
def cleanDiskTargets (home : String) (id : String) : Option CleanTarget :=
  if id = "user_cache" then some (.tPath (home ++ "/Library/Caches"))
  else if id = "system_logs" then some (.tPaths [home ++ "/Library/Logs"])
  else if id = "trash" then
    some (.tCmd "osascript -e \x27tell application \"Finder\" to empty trash\x27")
  else if id = "mail_cache" then
    some (.tPath (home ++ "/Library/Containers/com.apple.mail/Data/Library/Caches"))
  else if id = "xcode_derived" then
    some (.tPath (home ++ "/Library/Developer/Xcode/DerivedData"))
  else if id = "ios_backups" then
    some (.tPath (home ++ "/Library/Application Support/MobileSync/Backup"))
  else none

/-- The six keys of the `clean-disk-item` target map. -/
def cleanDiskKeys : List String :=
  ["user_cache", "system_logs", "trash", "mail_cache", "xcode_derived", "ios_backups"]

/-- Category ids advertised by the `get-disk-junk` handler (eight entries,
of which `language_files` and `app_downloads` are marked scan-only). -/
def diskJunkCategoryIds : List String :=
  ["user_cache", "system_logs", "trash", "mail_cache", "language_files",
   "xcode_derived", "ios_backups", "app_downloads"]

/-- Destructive external actions of a `clean-disk-item` run. -/
inductive CleanAction where
  | runCmd (cmd : String)
  | rmrf (p : String)
deriving Repr, DecidableEq

/-- Filesystem oracle for `clean-disk-item`: existence checks, directory
listings, and whether the empty-trash command exits without error. -/
structure FsEnv where
  pathExists : String → Bool
  listDir : String → List String
  execOk : String → Bool
  execErrMsg : String

/-- Deletion actions for the directory branch of `clean-disk-item`: for
each target path that exists, `rm -rf` each entry inside it (contents are
cleared but the folder kept). -/
def cleanDirActions (fs : FsEnv) (ps : List String) : List CleanAction :=
  ps.flatMap fun p =>
    if fs.pathExists p then
      (fs.listDir p).map fun item => CleanAction.rmrf (p ++ "/" ++ item)
    else []

/-- Embedding of the `clean-disk-item` handler: an id outside the target
map returns `Unknown category` and performs nothing; the `trash` command
branch runs the osascript command; a path branch clears directory
contents (per-item failures are swallowed, so it resolves success). -/
def cleanDiskItem (fs : FsEnv) (home : String) (id : String) :
    (Bool × Option String) × List CleanAction :=
  match cleanDiskTargets home id with
  | none => ((false, some "Unknown category"), [])
  | some (.tCmd c) =>
    ((fs.execOk c, if fs.execOk c then none else some fs.execErrMsg),
     [CleanAction.runCmd c])
  | some (.tPath p) => ((true, none), cleanDirActions fs [p])
  | some (.tPaths ps) => ((true, none), cleanDirActions fs ps)

-- ─── concrete environments used to instantiate the theorems ───────────────

/-- Snapshot with given `free` and `used` byte figures and all other
fields zero (the metrics computation only reads `free` and `used`). -/
def snapOfFreeUsed (free used : Int) : RamSnapshot :=
  ⟨0, used, free, 0, 0, 0, 0, none⟩

/-- Pressure reading with everything unknown. -/
def pressureUnknown : Pressure :=
  ⟨"unknown", "UNKNOWN", none⟩

/-- Escalation oracle for the scenario "tier 1 fails because no credential
is cached, tier 2 succeeds". -/
def tier2OnlyEnv : PurgeEnv :=
  ⟨false, ⟨false, none⟩, ⟨true, none⟩, ⟨true, none⟩, ⟨false, none⟩⟩

/-- Escalation oracle where tier 1 succeeds from the cached credential. -/
def tier1Env : PurgeEnv :=
  ⟨true, ⟨true, none⟩, ⟨false, none⟩, ⟨false, none⟩, ⟨false, none⟩⟩

/-- Free-ram oracle where every tier fails: the AskPass authorization and
the native dialog both report errors. -/
def failEnv : FreeEnv :=
  ⟨⟨false, ⟨false, none⟩, ⟨false, some "auth denied"⟩, ⟨false, none⟩,
    ⟨false, some "dialog dismissed"⟩⟩,
   snapOfFreeUsed 0 0, pressureUnknown,
   snapOfFreeUsed 0 0, pressureUnknown,
   snapOfFreeUsed 0 0, pressureUnknown⟩

/-- Process table with one process of another user (pid 7), one process of
the invoking user (pid 100), and nothing else. -/
def guardEnvTable : Int → Option (String × String) := fun pid =>
  if pid = 7 then some ("bob", "/usr/libexec/othertool")
  else if pid = 100 then some ("alice", "/usr/bin/bigapp")
  else none

/-- Process oracle for the guard scenario: invoking user `alice`, own pid
42, kills succeed, and signalled processes exit within the grace
period. -/
def guardEnv : ProcEnv :=
  ⟨guardEnvTable, "alice", 42, fun _ => true, fun _ => "kill failed", fun _ => false⟩

/-- Process oracle whose table holds a root-owned deny-listed process
(`WindowServer`, pid 300). -/
def protEnv : ProcEnv :=
  ⟨fun pid => if pid = 300 then some ("root", "WindowServer") else none,
   "alice", 42, fun _ => true, fun _ => "kill failed", fun _ => false⟩

/-- Filesystem oracle on which everything exists and commands succeed. -/
def fsEnvAll : FsEnv :=
  ⟨fun _ => true, fun _ => [], fun _ => true, "exec failed"⟩

-- ─── Theorems ─────────────────────────────────────────────────────────────

/-- Claim C1: for every run of `purgeRamSmart`, a tier whose underlying
privileged command succeeds ends the escalation: tier-1 success (cached
credential, non-interactive purge succeeds) returns the `sudo-cached`
success before any AskPass prompt or native dialog; tier-2 success (the
AskPass authorization and the post-auth retry succeed) yields success
without the native dialog ever being attempted; tier-3 success yields
success. -/
theorem purgeRamSmart_stops_at_first_success (env : PurgeEnv) :
    (env.sudoCached = true → env.noPrompt1.success = true →
      (purgeRamSmartRun env).1 = ⟨true, some "sudo-cached", none⟩
      ∧ Event.askpassAuth ∉ (purgeRamSmartRun env).2
      ∧ Event.nativeDialogPurge ∉ (purgeRamSmartRun env).2)
    ∧ (env.auth.success = true → env.noPrompt2.success = true →
      (purgeRamSmartRun env).1.success = true
      ∧ Event.nativeDialogPurge ∉ (purgeRamSmartRun env).2)
    ∧ (env.fallback.success = true → (purgeRamSmartRun env).1.success = true) := by
  rcases env with ⟨sc, ⟨np1s, np1e⟩, ⟨auths, authe⟩, ⟨np2s, np2e⟩, ⟨fbs, fbe⟩⟩
  cases sc <;> cases np1s <;> cases auths <;> cases np2s <;> cases fbs <;>
    simp [purgeRamSmartRun]

/-- Witness for C1: with a cached credential and a succeeding
non-interactive purge, the run returns the tier-1 success tag. -/
theorem purgeRamSmart_stops_at_first_success_witness :
    (purgeRamSmartRun tier1Env).1 = ⟨true, some "sudo-cached", none⟩ :=
  ((purgeRamSmart_stops_at_first_success tier1Env).1 rfl rfl).1

/-- Claim C2 as stated is false: in the scenario "tier 1 fails because no
credential is cached, tier 2 succeeds", the run returns the tier-2
success tag (code string `sudo-askpass`, the spec's `prompted-credential`)
but the non-interactive privileged purge command (`sudo -n purge`) is
invoked exactly once, not twice: the pre-auth attempt is skipped when the
credential probe fails. -/
theorem purgeRamSmart_tier2_invocation_count :
    (purgeRamSmartRun tier2OnlyEnv).1 = ⟨true, some "sudo-askpass", none⟩
    ∧ (purgeRamSmartRun tier2OnlyEnv).2.count Event.sudoNoPromptPurge = 1
    ∧ ¬ (purgeRamSmartRun tier2OnlyEnv).2.count Event.sudoNoPromptPurge = 2 := by
  decide

/-- Claim C2 (amended): when no credential is cached and tier 2 succeeds,
`purgeRamSmart` returns success with the tier-2 tag (`sudo-askpass`, the
spec's `prompted-credential`), and the non-interactive privileged purge
command is invoked exactly once (only the post-auth retry). -/
theorem purgeRamSmart_tier2_invokes_once (env : PurgeEnv)
    (h1 : env.sudoCached = false) (h2 : env.auth.success = true)
    (h3 : env.noPrompt2.success = true) :
    (purgeRamSmartRun env).1 = ⟨true, some "sudo-askpass", none⟩
    ∧ (purgeRamSmartRun env).2.count Event.sudoNoPromptPurge = 1 := by
  rcases env with ⟨sc, ⟨np1s, np1e⟩, ⟨auths, authe⟩, ⟨np2s, np2e⟩, ⟨fbs, fbe⟩⟩
  subst h1
  simp only at h2 h3
  subst h2; subst h3
  simp [purgeRamSmartRun]
  decide

/-- Witness for the amended C2 at the concrete tier-2 scenario oracle. -/
theorem purgeRamSmart_tier2_invokes_once_witness :
    (purgeRamSmartRun tier2OnlyEnv).1 = ⟨true, some "sudo-askpass", none⟩
    ∧ (purgeRamSmartRun tier2OnlyEnv).2.count Event.sudoNoPromptPurge = 1 :=
  purgeRamSmart_tier2_invokes_once tier2OnlyEnv rfl rfl rfl

/-- Claim C3 as stated is false: `getRamSnapshot` can report a negative
`used` figure.  With page size 1, 10 free pages, no inactive pages and a
total memory of 5 bytes, `used = total - (free + inactive) = -5 < 0`. -/
theorem getRamSnapshot_used_negative :
    (getRamSnapshot ⟨0, 0, 0, 0, 10⟩ (some 1) 5).used < 0 := by
  decide

/-- Claim C3 (amended): for every parsed `vm_stat` output, page size and
total memory, the snapshot satisfies `free ≥ 0`, its `usedPct` lies in
[0, 100] whenever it is a number, and `used ≥ 0` holds whenever the bytes
counted as free-plus-inactive do not exceed the total (it is negative
when they do). -/
theorem getRamSnapshot_invariants (p : VmStatParse) (pageSizeOut : Option Nat)
    (totalmem : Nat) :
    0 ≤ (getRamSnapshot p pageSizeOut totalmem).free
    ∧ (∀ v, (getRamSnapshot p pageSizeOut totalmem).usedPct = some v →
        0 ≤ v ∧ v ≤ 100)
    ∧ ((getRamSnapshot p pageSizeOut totalmem).free ≤ (totalmem : Int) →
        0 ≤ (getRamSnapshot p pageSizeOut totalmem).used) := by
  refine ⟨?_, ?_, ?_⟩
  · simp only [getRamSnapshot]
    positivity
  · intro v hv
    simp only [getRamSnapshot] at hv
    split at hv
    · split at hv
      · exact absurd hv (by simp)
      · obtain rfl : (0 : Int) = v := Option.some.inj hv
        omega
    · obtain rfl := Option.some.inj hv
      omega
  · intro hfree
    simp only [getRamSnapshot] at hfree ⊢
    omega

/-- Witness for the amended C3: one inactive page and one free page of
16384 bytes against 65536 bytes of total memory give `free = 32768 ≥ 0`,
`usedPct = 50 ∈ [0, 100]`, and `used = 32768 ≥ 0`. -/
theorem getRamSnapshot_invariants_witness :
    0 ≤ (getRamSnapshot ⟨0, 0, 1, 0, 1⟩ (some 16384) 65536).free
    ∧ ((0 : Int) ≤ 50 ∧ (50 : Int) ≤ 100)
    ∧ 0 ≤ (getRamSnapshot ⟨0, 0, 1, 0, 1⟩ (some 16384) 65536).used := by
  have h := getRamSnapshot_invariants ⟨0, 0, 1, 0, 1⟩ (some 16384) 65536
  exact ⟨h.1, h.2.1 50 (by decide), h.2.2 (by decide)⟩

/-- Claim C6: the four byte deltas computed by `buildRamCleanupMetrics`
are clamped non-negative for every before/immediate/stabilized snapshot
triple, and on the documented scenario (before free 2.0 GB / used 14.0 GB,
immediate after free 2.3 GB / used 13.7 GB) both immediate deltas equal
300,000,000 bytes. -/
theorem buildRamCleanupMetrics_clamped_and_scenario :
    (∀ (before immediate stabilized : RamSnapshot) (ip sp : Pressure),
      0 ≤ (buildRamCleanupMetrics before immediate stabilized ip sp).immediateFreeGainBytes
      ∧ 0 ≤ (buildRamCleanupMetrics before immediate stabilized ip sp).immediateUsedDropBytes
      ∧ 0 ≤ (buildRamCleanupMetrics before immediate stabilized ip sp).stabilizedFreeGainBytes
      ∧ 0 ≤ (buildRamCleanupMetrics before immediate stabilized ip sp).stabilizedUsedDropBytes)
    ∧ ((buildRamCleanupMetrics (snapOfFreeUsed 2000000000 14000000000)
          (snapOfFreeUsed 2300000000 13700000000) (snapOfFreeUsed 0 0)
          pressureUnknown pressureUnknown).immediateFreeGainBytes = 300000000
      ∧ (buildRamCleanupMetrics (snapOfFreeUsed 2000000000 14000000000)
          (snapOfFreeUsed 2300000000 13700000000) (snapOfFreeUsed 0 0)
          pressureUnknown pressureUnknown).immediateUsedDropBytes = 300000000) := by
  constructor
  · exact fun b i s ip sp =>
      ⟨le_max_left _ _, le_max_left _ _, le_max_left _ _, le_max_left _ _⟩
  · constructor <;> decide

/-- Claim C7: when all three authorization tiers fail, the `free-ram`
handler returns a structured failure (the embedding is a total function,
so no run raises) whose error string is
`fallback.error || auth.error || "Unable to authorize RAM cleanup"` —
i.e. it prefers the tier-3 native-dialog error and falls back to the
tier-2 authorization error — and which carries the snapshot and pressure
reading captured before authorization. -/
theorem freeRam_failure_carries_before (env : FreeEnv)
    (h1 : env.purge.sudoCached = false ∨ env.purge.noPrompt1.success = false)
    (h2 : env.purge.auth.success = false ∨ env.purge.noPrompt2.success = false)
    (h3 : env.purge.fallback.success = false) :
    (freeRam env).1 = FreeRamOutcome.failure
        (some (jsOr env.purge.fallback.error
          (jsOr env.purge.auth.error "Unable to authorize RAM cleanup")))
        env.snap1 env.press1
    ∧ (∀ e, env.purge.fallback.error = some e → e ≠ "" →
        jsOr env.purge.fallback.error
          (jsOr env.purge.auth.error "Unable to authorize RAM cleanup") = e)
    ∧ (env.purge.fallback.error = none →
        ∀ e, env.purge.auth.error = some e → e ≠ "" →
        jsOr env.purge.fallback.error
          (jsOr env.purge.auth.error "Unable to authorize RAM cleanup") = e) := by
  refine ⟨?_, ?_, ?_⟩
  · obtain ⟨pu, s1, p1, s2, p2, s3, p3⟩ := env
    rcases pu with ⟨sc, ⟨np1s, np1e⟩, ⟨auths, authe⟩, ⟨np2s, np2e⟩, ⟨fbs, fbe⟩⟩
    simp only at h1 h2 h3
    subst h3
    cases sc <;> cases np1s <;> cases auths <;> cases np2s <;>
      simp_all [freeRam, purgeRamSmartRun]
  · intro e he hne
    simp [jsOr, he, hne]
  · intro hf e he hne
    simp [jsOr, hf, he, hne]

/-- Witness for C7 at a concrete oracle where every tier fails and the
native dialog reported `dialog dismissed`. -/
theorem freeRam_failure_carries_before_witness :
    (freeRam failEnv).1 = FreeRamOutcome.failure (some "dialog dismissed")
      (snapOfFreeUsed 0 0) pressureUnknown := by
  have h := freeRam_failure_carries_before failEnv (Or.inl rfl) (Or.inl rfl) rfl
  simpa using h.1

/-- Claim C8: `getMemoryPressure` takes the level from the parsed status
word when it upper-cases to `CRITICAL`, `WARNING` or `OK` (for any value
of the free percentage, so the threshold fallback is never consulted),
and whenever the status text is unparseable — no capture at all, or a
captured word that upper-cases to none of the three recognized statuses
(e.g. `NORMAL`) — it classifies the free percentage as `critical` below
5, `warning` below 12, `normal` otherwise, and `unknown` when the
percentage is also unavailable. -/
theorem getMemoryPressure_classification (statusWord : Option String)
    (freePct : Option Nat) :
    (∀ s, statusWord = some s → jsToUpper s = "CRITICAL" →
      (getMemoryPressureFrom statusWord freePct).level = "critical")
    ∧ (∀ s, statusWord = some s → jsToUpper s = "WARNING" →
      (getMemoryPressureFrom statusWord freePct).level = "warning")
    ∧ (∀ s, statusWord = some s → jsToUpper s = "OK" →
      (getMemoryPressureFrom statusWord freePct).level = "normal")
    ∧ ((∀ s, statusWord = some s →
          jsToUpper s ≠ "CRITICAL" ∧ jsToUpper s ≠ "WARNING" ∧ jsToUpper s ≠ "OK") →
        (freePct = none →
          (getMemoryPressureFrom statusWord freePct).level = "unknown")
        ∧ (∀ v, freePct = some v → v < 5 →
          (getMemoryPressureFrom statusWord freePct).level = "critical")
        ∧ (∀ v, freePct = some v → 5 ≤ v → v < 12 →
          (getMemoryPressureFrom statusWord freePct).level = "warning")
        ∧ (∀ v, freePct = some v → 12 ≤ v →
          (getMemoryPressureFrom statusWord freePct).level = "normal")) := by
  refine ⟨?_, ?_, ?_, ?_⟩
  · rintro s rfl hup
    simp [getMemoryPressureFrom, hup, jsOr]
  · rintro s rfl hup
    simp [getMemoryPressureFrom, hup, jsOr]
  · rintro s rfl hup
    simp [getMemoryPressureFrom, hup, jsOr]
  · intro hs
    rcases statusWord with _ | s
    · refine ⟨?_, ?_, ?_, ?_⟩
      · rintro rfl
        simp [getMemoryPressureFrom, jsOr]
      · rintro v rfl hv
        simp [getMemoryPressureFrom, jsOr, hv]
      · rintro v rfl h5 h12
        have h5n : ¬ v < 5 := by omega
        simp [getMemoryPressureFrom, jsOr, h5n, h12]
      · rintro v rfl h12
        have h5n : ¬ v < 5 := by omega
        have h12n : ¬ v < 12 := by omega
        simp [getMemoryPressureFrom, jsOr, h5n, h12n]
    · obtain ⟨hc, hw, ho⟩ := hs s rfl
      refine ⟨?_, ?_, ?_, ?_⟩
      · rintro rfl
        simp [getMemoryPressureFrom, jsOr, hc, hw, ho]
      · rintro v rfl hv
        simp [getMemoryPressureFrom, jsOr, hc, hw, ho, hv]
      · rintro v rfl h5 h12
        have h5n : ¬ v < 5 := by omega
        simp [getMemoryPressureFrom, jsOr, hc, hw, ho, h5n, h12]
      · rintro v rfl h12
        have h5n : ¬ v < 5 := by omega
        have h12n : ¬ v < 12 := by omega
        simp [getMemoryPressureFrom, jsOr, hc, hw, ho, h5n, h12n]

/-- Witness for C8: a mixed-case `Critical` status word forces level
`critical` even at a comfortable 50 % free, and the captured but
unrecognized status word `NORMAL` falls back to the threshold
classification, giving `critical` at 3 % free. -/
theorem getMemoryPressure_classification_witness :
    (getMemoryPressureFrom (some "Critical") (some 50)).level = "critical"
    ∧ (getMemoryPressureFrom (some "NORMAL") (some 3)).level = "critical" :=
  ⟨(getMemoryPressure_classification (some "Critical") (some 50)).1 "Critical"
     rfl (by decide),
   ((getMemoryPressure_classification (some "NORMAL") (some 3)).2.2.2
     (by intro s h; cases Option.some.inj h; decide)).2.1 3 rfl (by decide)⟩

/-- Claim C4: on the candidate list [own pid, 1, nonexistent pid, other
user's pid, valid pid], the `deep-clean-ram` guard loop admits exactly the
valid pid for termination and skips the other four with reasons
`invalid pid`, `invalid pid`, `not found` and `not allowed`, in that
correspondence. -/
theorem deepClean_guard_scenario (env : ProcEnv) (p1 p3 p4 p5 : Int)
    (o4 c4 c5 : String)
    (h1 : p1 = env.selfPid)
    (h3a : 1 < p3) (h3b : p3 ≠ env.selfPid) (h3c : env.table p3 = none)
    (h4a : 1 < p4) (h4b : p4 ≠ env.selfPid) (h4c : env.table p4 = some (o4, c4))
    (h4d : o4 ≠ env.me)
    (h5a : 1 < p5) (h5b : p5 ≠ env.selfPid) (h5c : env.table p5 = some (env.me, c5))
    (h5d : isProtectedProcessName (jsBaseName c5) = false)
    (h5e : env.killOk p5 = true) :
    deepCleanPids env [p1, 1, p3, p4, p5]
      = ([(p5, jsBaseName c5)],
         [(p1, "invalid pid"), (1, "invalid pid"), (p3, "not found"),
          (p4, "not allowed")],
         [p5]) := by
  have y1 : p1 ≤ 1 ∨ p1 = env.selfPid := Or.inr h1
  have n3 : ¬ (p3 ≤ 1 ∨ p3 = env.selfPid) := by
    push_neg
    exact ⟨by omega, h3b⟩
  have n4 : ¬ (p4 ≤ 1 ∨ p4 = env.selfPid) := by
    push_neg
    exact ⟨by omega, h4b⟩
  have n5 : ¬ (p5 ≤ 1 ∨ p5 = env.selfPid) := by
    push_neg
    exact ⟨by omega, h5b⟩
  simp [deepCleanPids, deepCleanStep, y1, n3, n4, n5, h3c, h4c, h5c, h4d,
    h5d, h5e]

/-- Witness for C4: user `alice` with own pid 42 asks to stop
[42, 1, 999, 7, 100] where 999 does not exist, 7 belongs to `bob` and 100
is her own unprotected process: only pid 100 is signalled. -/
theorem deepClean_guard_scenario_witness :
    deepCleanPids guardEnv [42, 1, 999, 7, 100]
      = ([(100, "bigapp")],
         [(42, "invalid pid"), (1, "invalid pid"), (999, "not found"),
          (7, "not allowed")],
         [100]) := by
  have h := deepClean_guard_scenario guardEnv 42 999 7 100 "bob"
    "/usr/libexec/othertool" "/usr/bin/bigapp" rfl (by decide) (by decide) rfl
    (by decide) (by decide) rfl (by decide) (by decide) (by decide) rfl
    (by decide) rfl
  exact h.trans (by decide)

/-- Helper for C5: one guard-loop iteration never signals a pid whose
table entry carries a deny-listed process name. -/
lemma deepCleanStep_protected_not_signalled (env : ProcEnv) (pid : Int)
    (owner comm : String) (hTab : env.table pid = some (owner, comm))
    (hProt : isProtectedProcessName (jsBaseName comm) = true)
    (acc : DeepCleanAcc) (q : Int) (hq : pid ∉ acc.2.2) :
    pid ∉ (deepCleanStep env acc q).2.2 := by
  rcases acc with ⟨st, sk, sg⟩
  simp only [deepCleanStep]
  split
  · simpa using hq
  · split
    · simpa using hq
    · rename_i o c heq
      split
      · simpa using hq
      · rename_i hcond
        have hne : pid ≠ q := by
          intro hpq
          subst hpq
          rw [hTab] at heq
          obtain ⟨rfl, rfl⟩ : o = owner ∧ c = comm := by
            have := Option.some.inj heq
            exact ⟨congrArg Prod.fst this.symm, congrArg Prod.snd this.symm⟩
          exact hcond (Or.inr hProt)
        split <;> simp [List.mem_append, hq, hne]

/-- Helper for C5: folding the guard loop over any candidate list
preserves "pid is not signalled". -/
lemma deepCleanFold_protected_not_signalled (env : ProcEnv) (pid : Int)
    (owner comm : String) (hTab : env.table pid = some (owner, comm))
    (hProt : isProtectedProcessName (jsBaseName comm) = true)
    (l : List Int) :
    ∀ acc : DeepCleanAcc, pid ∉ acc.2.2 →
      pid ∉ (l.foldl (deepCleanStep env) acc).2.2 := by
  induction l with
  | nil => intro acc h; simpa using h
  | cons q l ih =>
    intro acc h
    exact ih _ (deepCleanStep_protected_not_signalled env pid owner comm hTab
      hProt acc q h)

/-- Claim C5: a process whose name matches the fixed deny-list
(case-insensitive substring) is never signalled for termination,
regardless of its owner: the single `quit-process` path sends no signal
for such a pid, and the batch `deep-clean-ram` guard loop never signals
it for any candidate list. -/
theorem protected_process_never_signalled (env : ProcEnv) (pid : Int)
    (owner comm : String)
    (hTab : env.table pid = some (owner, comm))
    (hProt : isProtectedProcessName (jsBaseName comm) = true) :
    (quitProcess env pid).2 = []
    ∧ ∀ pids : List Int, pid ∉ (deepCleanPids env pids).2.2 := by
  constructor
  · simp only [quitProcess]
    split
    · rfl
    · rw [hTab]
      simp only [hProt]
      split
      · rfl
      · simp
  · intro pids
    exact deepCleanFold_protected_not_signalled env pid owner comm hTab hProt
      (pids.take 5) ([], [], []) (by simp)

/-- Witness for C5: a root-owned `WindowServer` entry (pid 300) is not
signalled by `quit-process` nor by `deep-clean-ram` on the singleton
candidate list. -/
theorem protected_process_never_signalled_witness :
    (quitProcess protEnv 300).2 = []
    ∧ (300 : Int) ∉ (deepCleanPids protEnv [300]).2.2 := by
  have h := protected_process_never_signalled protEnv 300 "root" "WindowServer"
    rfl (by decide)
  exact ⟨h.1, h.2 [300]⟩

/-- Claim C9: the single `quit-process` operation verifies exit: for an
admitted pid (valid, not our own, existing, owned by the invoking user,
not deny-listed, signal delivered), the handler re-checks liveness after
the 1.2 s grace period and returns the failure `Process did not exit in
time` when the process is still alive; it returns success exactly when
the process is verified gone. -/
theorem quitProcess_verifies_exit (env : ProcEnv) (pid : Int) (comm : String)
    (hRange : 1 < pid) (hSelf : pid ≠ env.selfPid)
    (hTab : env.table pid = some (env.me, comm))
    (hProt : isProtectedProcessName (jsBaseName comm) = false)
    (hKill : env.killOk pid = true) :
    (env.aliveAfter pid = true →
      quitProcess env pid = (⟨false, some "Process did not exit in time"⟩, [pid]))
    ∧ (env.aliveAfter pid = false →
      quitProcess env pid = (⟨true, none⟩, [pid])) := by
  have hni : ¬ (pid ≤ 1 ∨ pid = env.selfPid) := by
    push_neg
    exact ⟨by omega, hSelf⟩
  constructor <;> intro ha <;>
    simp [quitProcess, hni, hTab, hProt, hKill, ha]

/-- Witness for C9: `alice` stops her own pid 100, which exits within the
grace period, so the handler reports success. -/
theorem quitProcess_verifies_exit_witness :
    quitProcess guardEnv 100 = (⟨true, none⟩, [100]) :=
  (quitProcess_verifies_exit guardEnv 100 "/usr/bin/bigapp" (by decide)
    (by decide) rfl (by decide) rfl).2 rfl

/-- Claim C10: a category id outside the fixed six-key target map of
`clean-disk-item` — in particular the scan-only ids `app_downloads` and
`language_files` advertised by `get-disk-junk` — yields the failure
`Unknown category` with no deletion action, so the Downloads folder and
language files are never deleted by any `clean-disk-item` invocation. -/
theorem cleanDiskItem_unknown_category (fs : FsEnv) (home id : String)
    (h : id ∉ cleanDiskKeys) :
    cleanDiskItem fs home id = ((false, some "Unknown category"), [])
    ∧ ("app_downloads" ∈ diskJunkCategoryIds ∧ "app_downloads" ∉ cleanDiskKeys)
    ∧ ("language_files" ∈ diskJunkCategoryIds ∧ "language_files" ∉ cleanDiskKeys) := by
  refine ⟨?_, by decide, by decide⟩
  simp only [cleanDiskKeys, List.mem_cons, List.not_mem_nil, or_false,
    not_or] at h
  obtain ⟨n1, n2, n3, n4, n5, n6⟩ := h
  simp [cleanDiskItem, cleanDiskTargets, n1, n2, n3, n4, n5, n6]

/-- Witness for C10 at the scan-only id `app_downloads`: failure and no
deletion even on a filesystem where every path exists. -/
theorem cleanDiskItem_unknown_category_witness :
    cleanDiskItem fsEnvAll "/Users/u" "app_downloads"
      = ((false, some "Unknown category"), []) :=
  (cleanDiskItem_unknown_category fsEnvAll "/Users/u" "app_downloads"
    (by decide)).1

end MacCleaner
